import Mathlib

/-!
Shallow embedding of src/lite_unit_test.py (the concurrent-capable harness):
the value model of the Python objects the harness manipulates, the
TestEntry descriptor, the UnitTest harness state, the synchronous worker
loop, the aggregator loop, and the module-level equality helpers.
Machine-level Python details (object identity, hash order of sets,
memory addresses in function reprs) are modelled by canonical choices that
no verified property depends on.
-/

namespace LiteUnitTest

/-- Python atoms that flow through the harness in the modelled fragment:
integers and strings. Python sets cannot contain sets (sets are
unhashable), so set elements are atoms. -/
inductive PyAtom where
  | aInt : Int → PyAtom
  | aStr : String → PyAtom
deriving DecidableEq, Repr, Inhabited

/-- Python values: atoms, or a set of atoms (modelled as the list of its
members; membership is what the code observes). -/
inductive PyVal where
  | atom : PyAtom → PyVal
  | set : List PyAtom → PyVal
deriving DecidableEq, Repr, Inhabited

/-- The single-quote character, used by Python repr of strings. -/
def sq : String := String.singleton (Char.ofNat 39)

/-- Python repr() of an atom: ints print plainly, strings are quoted. -/
def PyAtom.pyRepr : PyAtom → String
  | .aInt n => toString n
  | .aStr s => sq ++ s ++ sq

/-- Python str() of an atom. -/
def PyAtom.pyStrAtom : PyAtom → String
  | .aInt n => toString n
  | .aStr s => s

/-- Python str() of a value; str of a set shows the repr of each member
inside braces, and the empty set prints as set(). -/
def pyStr : PyVal → String
  | .atom a => a.pyStrAtom
  | .set [] => "set()"
  | .set xs => "\x7b" ++ String.intercalate ", " (xs.map PyAtom.pyRepr) ++ "\x7d"

/-- Python str() of the tuple of positional arguments (used when a
TestEntry formats \x7bself.func_arg\x7d): element reprs, with the
trailing comma of a 1-tuple. -/
def pyTupleStr : List PyVal → String
  | [] => "()"
  | [PyVal.atom a] => "(" ++ a.pyRepr ++ ",)"
  | [PyVal.set xs] => "(" ++ pyStr (.set xs) ++ ",)"
  | vs => "(" ++ String.intercalate ", " (vs.map fun v =>
      match v with
      | .atom a => a.pyRepr
      | .set xs => pyStr (.set xs)) ++ ")"

/-- A raised Python exception as the harness observes it: e.__doc__,
str(e), and the traceback.format_exc() text active at the catch site. -/
structure PyExn where
  doc : String
  msg : String
  trace : String
deriving DecidableEq, Repr, Inhabited

/-- A Python function object bound as a test target: its __name__ and its
call behaviour on a tuple of positional arguments (returning a value or
raising). -/
structure PyFunc where
  name : String
  call : List PyVal → Except PyExn PyVal

/-- A Python function object bound as an equality predicate:
execute() calls it as equal_func_ptr(output, equal_func_rhs). -/
structure PyPred where
  name : String
  call : PyVal → PyVal → Except PyExn Bool

/-- Bool test of whether needle occurs as a contiguous substring of the
haystack, as the Python operator in does on two strings. -/
def charInfix (needle : List Char) : List Char → Bool
  | [] => needle.isEmpty
  | c :: rest => needle.isPrefixOf (c :: rest) || charInfix needle rest

/-- The TypeError raised by the operator in when its right operand is an
int (not a container). -/
def typeErrorNotIterable : PyExn :=
  { doc := "Inappropriate argument type."
    msg := "argument of type int is not iterable"
    trace := "Traceback (most recent call last): in" }

/-- Module helper in_set_wrapper(element, set_): return str(element) in set_.
On a set, membership by equality; on a string, substring test; on an int,
the operator in raises TypeError. -/
def in_set_wrapper : PyPred where
  name := "in_set_wrapper"
  call := fun element set_ =>
    match set_ with
    | .set xs => .ok (decide (PyAtom.aStr (pyStr element) ∈ xs))
    | .atom (.aStr s) => .ok (charInfix (pyStr element).toList s.toList)
    | .atom (.aInt _) => .error typeErrorNotIterable

/-- Module helper str_eq(lhs, rhs): return str(lhs) == str(rhs). -/
def str_eq : PyPred where
  name := "str_eq"
  call := fun lhs rhs => .ok (pyStr lhs == pyStr rhs)

/-- The NameError raised when the name rhs_set is evaluated with no
binding in scope. -/
def nameErrorRhsSet : PyExn :=
  { doc := "Name not found globally."
    msg := "name " ++ sq ++ "rhs_set" ++ sq ++ " is not defined"
    trace := "Traceback (most recent call last): in str_in_set" }

/-- Python iter(v): a set iterates its members, a string iterates its
characters as 1-character strings, and iter of an int raises TypeError
(modelled as none). -/
def pyIter : PyVal → Option (List PyVal)
  | .set xs => some (xs.map PyVal.atom)
  | .atom (.aStr s) => some (s.toList.map fun c => PyVal.atom (.aStr (String.singleton c)))
  | .atom (.aInt _) => none

/-- Python set(map(str, v)): stringify each element of the iterable v and
collect into a set (first occurrence kept); TypeError when v is not
iterable. -/
def pySetOfMapStr (v : PyVal) : Except PyExn (List PyAtom) :=
  match pyIter v with
  | none => .error typeErrorNotIterable
  | some items => .ok (items.foldl (fun acc x =>
      let s := PyAtom.aStr (pyStr x)
      if s ∈ acc then acc else acc ++ [s]) [])

/-- Module helper str_in_set(lhs, rhs_iter): its body is
return str(lhs) in set(map(str, rhs_set)). The name rhs_set is resolved
against the local scope (which binds only lhs and rhs_iter) and then the
module and builtin scopes, none of which defines rhs_set (the module
globals are the imports, the helpers try_import / in_set_wrapper /
str_eq / str_in_set, the classes TestEntry / UnitTest, UTEST_INSTANCE and
the demo functions), so evaluation raises NameError before the parameter
rhs_iter is ever consulted. -/
def str_in_set (lhs rhs_iter : PyVal) : Except PyExn Bool :=
  let locals : List (String × PyVal) := [("lhs", lhs), ("rhs_iter", rhs_iter)]
  match locals.find? (fun p => p.1 == "rhs_set") with
  | none => .error nameErrorRhsSet
  | some p => do
      let s ← pySetOfMapStr p.2
      pure (decide (PyAtom.aStr (pyStr lhs) ∈ s))

/-- The struct holding the metadata of one test entry, as stored in the
task queue. -/
structure TestEntry where
  func_ptr : PyFunc
  equal_func_ptr : PyPred
  equal_func_rhs : PyVal
  func_name : String
  func_arg : List PyVal

/-- Python repr of a function object, as it appears when a TestEntry
formats its equality predicate (the at 0x... address is not modelled). -/
def funcObjStr (name : String) : String := "<function " ++ name ++ ">"

/-- TestEntry.__str__: the f-string
TestEntry: \x7bfunc_name\x7d(\x7bfunc_arg\x7d) concatenated with
should yield True on \x7bequal_func_ptr\x7d(\x7bequal_func_rhs\x7d). -/
def TestEntry.toStr (t : TestEntry) : String :=
  "TestEntry: " ++ t.func_name ++ "(" ++ pyTupleStr t.func_arg ++ ")"
    ++ "should yield True on " ++ funcObjStr t.equal_func_ptr.name
    ++ "(" ++ pyStr t.equal_func_rhs ++ ")"

/-- TestEntry.lazy_init(func_ptr, expected_str_out_set, *func_arg):
builds the entry with the in_set_wrapper predicate and the target's
intrinsic name. -/
def TestEntry.lazy_init (func_ptr : PyFunc) (expected_str_out_set : PyVal)
    (func_arg : List PyVal) : TestEntry :=
  { func_ptr := func_ptr
    equal_func_ptr := in_set_wrapper
    equal_func_rhs := expected_str_out_set
    func_name := func_ptr.name
    func_arg := func_arg }

/-- TestEntry.multi_init(func_ptr, equal_func_ptr, func_arg_2_equal_rhs,
func_name, get_each_equal_rhs): one entry per mapping pair; when
get_each_equal_rhs is set and the expected value is iterable, one entry
per iterated element, and when iter raises TypeError the scalar fallback
entry is added instead. The insertion-ordered dict is the list of its
pairs; the returned Python set of distinct TestEntry objects (sets hash
them by identity) is the list of entries in insertion order. -/
def TestEntry.multi_init (func_ptr : PyFunc) (equal_func_ptr : PyPred)
    (func_arg_2_equal_rhs : List (List PyVal × PyVal))
    (func_name : Option String) (get_each_equal_rhs : Bool) : List TestEntry :=
  let fname := func_name.getD func_ptr.name
  func_arg_2_equal_rhs.flatMap fun p =>
    if get_each_equal_rhs then
      match pyIter p.2 with
      | some items => items.map fun rhs =>
          { func_ptr := func_ptr, equal_func_ptr := equal_func_ptr
            equal_func_rhs := rhs, func_name := fname, func_arg := p.1 }
      | none =>
          [{ func_ptr := func_ptr, equal_func_ptr := equal_func_ptr
             equal_func_rhs := p.2, func_name := fname, func_arg := p.1 }]
    else
      [{ func_ptr := func_ptr, equal_func_ptr := equal_func_ptr
         equal_func_rhs := p.2, func_name := fname, func_arg := p.1 }]

/-- The mutable state of a UnitTest object: the three multiprocessing
queues as the ordered lists of their contents, the running total, and the
integer sitting in the count queue. -/
structure UnitTest where
  test_queue : List TestEntry
  print_queue : List String
  passed : List String
  total : Nat
  count : Nat

/-- UnitTest.__init__: empty queues, total 0, and count.put(0). -/
def UnitTest.init : UnitTest :=
  { test_queue := [], print_queue := [], passed := [], total := 0, count := 0 }

/-- The message put on the failure/print channel when execute catches an
exception: Failed: str(self), then error: e.__doc__ str(e), then the
formatted traceback, then a newline. -/
def excFailMsg (t : TestEntry) (e : PyExn) : String :=
  "Failed: " ++ t.toStr ++ "\nerror: " ++ e.doc ++ " " ++ e.msg ++ "\n"
    ++ e.trace ++ "\n"

/-- The display string name(arg1, arg2, ...) built at the top of
TestEntry.execute from ", ".join(map(str, func_arg)). -/
def TestEntry.funcStr (t : TestEntry) : String :=
  t.func_name ++ "(" ++ String.intercalate ", " (t.func_arg.map pyStr) ++ ")"

/-- TestEntry.execute(self, utest): call the target on the stored
arguments, evaluate the predicate on the output, and put exactly one
message: Passed on utest.passed when the predicate holds, Failed on
utest.print_queue when it does not, and the exception diagnostic on
utest.print_queue when either call raises. The try/except Exception
boundary means the caller always gets the updated state back. -/
def TestEntry.execute (t : TestEntry) (utest : UnitTest) : UnitTest :=
  match t.func_ptr.call t.func_arg with
  | .error e =>
      { utest with print_queue := utest.print_queue ++ [excFailMsg t e] }
  | .ok output =>
      match t.equal_func_ptr.call output t.equal_func_rhs with
      | .error e =>
          { utest with print_queue := utest.print_queue ++ [excFailMsg t e] }
      | .ok true =>
          { utest with passed := utest.passed
              ++ ["Passed: " ++ t.funcStr ++ "->" ++ pyStr output ++ "\n"] }
      | .ok false =>
          { utest with print_queue := utest.print_queue
              ++ ["Failed: " ++ t.funcStr ++ "->" ++ pyStr output
                  ++ " is not evaluated from " ++ pyStr t.equal_func_rhs ++ "\n"] }

/-- The diagnostic line a worker puts on the print channel before it
starts consuming the queue. -/
def pidStartMsg (pid : Nat) : String :=
  "PID #" ++ toString pid ++ " should be started."

/-- The diagnostic line a worker puts on the print channel after the
queue is exhausted. -/
def pidJoinMsg (pid : Nat) : String :=
  "PID #" ++ toString pid ++ " should be joined."

/-- The while-loop of _execute_synchronously: while the test queue is not
empty, get one entry and execute it. -/
def drainTests : List TestEntry → UnitTest → UnitTest
  | [], u => u
  | t :: rest, u => drainTests rest (t.execute { u with test_queue := rest })

/-- Module function _execute_synchronously(test_q, utest) run by a worker
whose os.getpid() is pid: put the started line, drain the queue executing
each entry, put the joined line. -/
def _execute_synchronously (pid : Nat) (utest : UnitTest) : UnitTest :=
  let u1 := { utest with
    print_queue := utest.print_queue ++ [pidStartMsg pid] }
  let u2 := drainTests u1.test_queue u1
  { u2 with print_queue := u2.print_queue ++ [pidJoinMsg pid] }

/-- The element-popping normalization loop of UnitTest.add_test: pop
every element of the set, convert the non-str ones with str(), and add
the results to the fresh set str_set (set insertion keeps one copy of
each string). Conversion with str() fixes a str element, so each element
contributes its pyStr form. -/
def strSetOfList (xs : List PyAtom) : List PyAtom :=
  xs.foldl (fun acc a =>
    let s := PyAtom.aStr (PyAtom.pyStrAtom a)
    if s ∈ acc then acc else acc ++ [s]) []

/-- UnitTest.add_test(self, func, expected_str_out_set, *f_arg): wrap a
non-set argument in a singleton set, drain the set element by element
into the stringified str_set, build one entry with lazy_init, put it on
the test queue and increment total. The second component of the result is
the caller's expected_str_out_set object after the call: the popping loop
runs on the caller's own set, so a set argument comes back empty, while a
non-set argument is untouched. -/
def UnitTest.add_test (u : UnitTest) (func : PyFunc)
    (expected_str_out_set : PyVal) (f_arg : List PyVal) : UnitTest × PyVal :=
  let elems := match expected_str_out_set with
    | .set xs => xs
    | .atom a => [a]
  let str_set := strSetOfList elems
  let entry := TestEntry.lazy_init func (.set str_set) f_arg
  ({ u with test_queue := u.test_queue ++ [entry], total := u.total + 1 },
   match expected_str_out_set with
   | .set _ => .set []
   | .atom a => .atom a)

/-- UnitTest.add_tests(self, *entries): put each pre-built entry on the
test queue, incrementing total once per entry. -/
def UnitTest.add_tests (u : UnitTest) (entries : List TestEntry) : UnitTest :=
  entries.foldl (fun acc e =>
    { acc with test_queue := acc.test_queue ++ [e], total := acc.total + 1 }) u

/-- UnitTest.execute(self) run in the process with id pid: run
_execute_synchronously on the calling process, then print every message
of the print queue, then print every message of the passed queue while
stepping the counter queue, then print the summary line
passed count/total. The result is the final state paired with the list
of console lines in print order. -/
def UnitTest.execute (pid : Nat) (u : UnitTest) : UnitTest × List String :=
  let u1 := _execute_synchronously pid u
  let finalCount := u1.count + u1.passed.length
  ({ u1 with print_queue := [], passed := [], count := finalCount },
   u1.print_queue ++ u1.passed
     ++ ["passed " ++ toString finalCount ++ "/" ++ toString u1.total])

/-- Outcome of one channel get(True, time_out_sec) in the aggregator: a
value arrived within the timeout, or the get raised queue.Empty. -/
inductive Recv where
  | got : String → Recv
  | timedOut : Recv
deriving DecidableEq, Repr

/-- Module function _execute_print_queue(proceses_joined, print_q,
passed_q, count_container, time_out_sec, counts_per_update), modelled
over the schedule of its channel receives: element i of sched is the pair
of outcomes of the two get calls of iteration i, and the loop guard
observes proceses_joined[0] become true exactly when sched is exhausted.
The result is the list of console lines the aggregator prints. The body
first gets from print_q, then gets from passed_q; only then does it print
the non-empty txt, accumulate a non-empty passed into passed_str, read
the counter, print the periodic progress line, and step the counter. A
queue.Empty from either get jumps to the handler, which prints the
accumulated passed_str and returns True. The source compares txt and
passed against None and the empty string with is; no producer ever puts
None or an interned empty string, so the checks are modelled as
emptiness tests. -/
def _execute_print_queue (sched : List (Recv × Recv)) (passed_str : String)
    (count : Nat) (counts_per_update : Nat) : List String :=
  match sched with
  | [] => []
  | (txtR, passR) :: rest =>
    match txtR with
    | .timedOut => [passed_str]
    | .got txt =>
      match passR with
      | .timedOut => [passed_str]
      | .got passed =>
        let printedTxt := if txt ≠ "" then [txt] else []
        if passed ≠ "" then
          let progress := if count % counts_per_update == 0 then
              ["Current count: " ++ toString count] else []
          printedTxt ++ progress
            ++ _execute_print_queue rest (passed_str ++ passed) (count + 1)
                counts_per_update
        else
          printedTxt ++ _execute_print_queue rest passed_str count
              counts_per_update

/-- Class constant UnitTest.PROCESSES = multiprocessing.cpu_count() - 2,
as an integer function of the machine's core count. -/
def UnitTest.PROCESSES (cpu_count : Nat) : Int := (cpu_count : Int) - 2

/-- The deterministic prelude of UnitTest.execute_async on a machine with
cpu_count cores: the header line it prints and the number of worker
processes its spawn loop for n in range(max(PROCESSES, 1)) starts. -/
def UnitTest.execute_async_prelude (cpu_count : Nat) : String × Nat :=
  ("Executing with " ++ toString (UnitTest.PROCESSES cpu_count)
     ++ " procssors.",
   (max (UnitTest.PROCESSES cpu_count) 1).toNat)

/-- Messages one entry's execution puts on the failure/print channel
(read off from TestEntry.execute started from the empty state). -/
def TestEntry.failMsgs (t : TestEntry) : List String :=
  (t.execute UnitTest.init).print_queue

/-- Messages one entry's execution puts on the pass channel. -/
def TestEntry.passMsgs (t : TestEntry) : List String :=
  (t.execute UnitTest.init).passed

/-- Failure-channel messages of a queue of entries, in queue order. -/
def failMsgsList : List TestEntry → List String
  | [] => []
  | t :: ts => t.failMsgs ++ failMsgsList ts

/-- Pass-channel messages of a queue of entries, in queue order. -/
def passMsgsList : List TestEntry → List String
  | [] => []
  | t :: ts => t.passMsgs ++ passMsgsList ts

/-- A concrete exception value for instantiating the error-path
theorems. -/
def exnBoom : PyExn :=
  { doc := "Second argument to a division or modulo operation was zero."
    msg := "division by zero"
    trace := "Traceback (most recent call last): in division" }

/-- A concrete target that always raises. -/
def raisingTarget : PyFunc :=
  { name := "division", call := fun _ => .error exnBoom }

/-- A concrete target that returns the int 2 on every input, like the
numeric branch of the demo function test_func. -/
def constTwo : PyFunc :=
  { name := "test_func", call := fun _ => .ok (.atom (.aInt 2)) }

/-- A concrete target that returns the int 3 on every input. -/
def constThree : PyFunc :=
  { name := "g", call := fun _ => .ok (.atom (.aInt 3)) }

/-- A concrete entry whose target raises, for the error-path witnesses. -/
def raisingEntry : TestEntry :=
  TestEntry.lazy_init raisingTarget (.set [.aStr "2"]) [.atom (.aInt 1)]

/-- A concrete entry that passes: str(2) is in the expected set. -/
def passingEntry : TestEntry :=
  TestEntry.lazy_init constTwo (.set [.aStr "2"]) []

/-- A concrete entry that fails the predicate: the expected set is
empty. -/
def failingEntry : TestEntry :=
  TestEntry.lazy_init constThree (.set []) []

/-- A harness holding a passing test enqueued first and a failing test
enqueued second (built through add_test, as a caller would). -/
def passThenFailState : UnitTest :=
  (UnitTest.add_test
    (UnitTest.add_test UnitTest.init constTwo (.atom (.aStr "2")) []).1
    constThree (.set []) []).1

/-- A harness holding one failing entry, for the worker-diagnostic
witness. -/
def oneFailState : UnitTest :=
  (UnitTest.add_test UnitTest.init constThree (.set []) []).1

/-- Executing one entry only appends its messages to the two result
channels; the task queue, the total and the counter are untouched. -/
theorem TestEntry.execute_eq (t : TestEntry) (u : UnitTest) :
    t.execute u = { u with print_queue := u.print_queue ++ t.failMsgs,
                           passed := u.passed ++ t.passMsgs } := by
  simp only [TestEntry.failMsgs, TestEntry.passMsgs, TestEntry.execute]
  cases hf : t.func_ptr.call t.func_arg with
  | error e => simp [UnitTest.init]
  | ok out =>
      cases he : t.equal_func_ptr.call out t.equal_func_rhs with
      | error e => simp [UnitTest.init, he]
      | ok b => cases b <;> simp [UnitTest.init, he]

/-- The worker loop appends the failure and pass messages of the drained
entries, in queue order, and leaves the queue empty (unless it was
already empty and never written). -/
theorem drainTests_eq (ts : List TestEntry) (u : UnitTest) :
    drainTests ts u =
      { test_queue := if ts.isEmpty then u.test_queue else [],
        print_queue := u.print_queue ++ failMsgsList ts,
        passed := u.passed ++ passMsgsList ts,
        total := u.total, count := u.count } := by
  induction ts generalizing u with
  | nil => simp [drainTests, failMsgsList, passMsgsList]
  | cons t rest ih =>
      simp only [drainTests, ih, TestEntry.execute_eq, failMsgsList,
        passMsgsList, List.isEmpty_cons]
      cases rest <;> simp

/-- Worker run: the print channel receives the started line, then the
failure messages of the queue in order, then the joined line; the pass
channel receives the pass messages in order; total and count are
untouched and the queue ends empty. -/
theorem execute_synchronously_eq (pid : Nat) (u : UnitTest) :
    _execute_synchronously pid u =
      { test_queue := [],
        print_queue := u.print_queue
          ++ pidStartMsg pid :: (failMsgsList u.test_queue ++ [pidJoinMsg pid]),
        passed := u.passed ++ passMsgsList u.test_queue,
        total := u.total, count := u.count } := by
  simp only [_execute_synchronously, drainTests_eq]
  cases h : u.test_queue with
  | nil => simp [failMsgsList, passMsgsList, h]
  | cons t rest => simp [h]

/-- Every message an entry puts on the failure channel begins with the
text Failed and a colon. -/
theorem failMsgs_shape (t : TestEntry) :
    ∀ m ∈ t.failMsgs, ∃ r, m = "Failed: " ++ r := by
  intro m hm
  simp only [TestEntry.failMsgs, TestEntry.execute] at hm
  cases hf : t.func_ptr.call t.func_arg with
  | error e =>
      simp only [hf, UnitTest.init, List.nil_append, List.mem_singleton] at hm
      exact ⟨t.toStr ++ "\nerror: " ++ e.doc ++ " " ++ e.msg ++ "\n" ++ e.trace ++ "\n",
        by rw [hm]; simp [excFailMsg, String.append_assoc]⟩
  | ok out =>
      simp only [hf] at hm
      cases he : t.equal_func_ptr.call out t.equal_func_rhs with
      | error e =>
          simp only [he, UnitTest.init, List.nil_append, List.mem_singleton] at hm
          exact ⟨t.toStr ++ "\nerror: " ++ e.doc ++ " " ++ e.msg ++ "\n" ++ e.trace ++ "\n",
            by rw [hm]; simp [excFailMsg, String.append_assoc]⟩
      | ok b =>
          cases b with
          | true => simp [he, UnitTest.init] at hm
          | false =>
              simp only [he, UnitTest.init, List.nil_append, List.mem_singleton] at hm
              exact ⟨t.funcStr ++ "->" ++ pyStr out ++ " is not evaluated from "
                  ++ pyStr t.equal_func_rhs ++ "\n",
                by rw [hm]; simp [String.append_assoc]⟩

/-- The first character of a Failed message. -/
theorem failed_msg_head (r : String) :
    ("Failed: " ++ r).data.head? = some (Char.ofNat 70) := rfl

/-- The first character of the worker's started diagnostic. -/
theorem pid_start_head (pid : Nat) :
    (pidStartMsg pid).data.head? = some (Char.ofNat 80) := rfl

/-- The first character of the worker's joined diagnostic. -/
theorem pid_join_head (pid : Nat) :
    (pidJoinMsg pid).data.head? = some (Char.ofNat 80) := rfl

/-- A Failed message is never one of the two worker diagnostics. -/
theorem failMsg_ne_pidMsg (pid : Nat) (r : String) :
    "Failed: " ++ r ≠ pidStartMsg pid ∧ "Failed: " ++ r ≠ pidJoinMsg pid := by
  constructor <;> intro hcontra
  · have hh : ("Failed: " ++ r).data.head? = (pidStartMsg pid).data.head? := by
      rw [hcontra]
    rw [failed_msg_head, pid_start_head] at hh
    simp at hh
  · have hh : ("Failed: " ++ r).data.head? = (pidJoinMsg pid).data.head? := by
      rw [hcontra]
    rw [failed_msg_head, pid_join_head] at hh
    simp at hh

/-- No failure-channel message of a queue matches either worker
diagnostic. -/
theorem failMsgsList_not_pid (pid : Nat) (ts : List TestEntry) :
    ∀ m ∈ failMsgsList ts, (m == pidStartMsg pid || m == pidJoinMsg pid) = false := by
  induction ts with
  | nil => intro m hm; simp [failMsgsList] at hm
  | cons t rest ih =>
      intro m hm
      simp only [failMsgsList, List.mem_append] at hm
      rcases hm with hm | hm
      · rcases failMsgs_shape t m hm with ⟨r, rfl⟩
        have h1 := (failMsg_ne_pidMsg pid r).1
        have h2 := (failMsg_ne_pidMsg pid r).2
        simp [h1, h2]
      · exact ih m hm

/-- C1: executing a descriptor whose target or predicate raises never
lets the exception escape: the state comes back with exactly one Fail
message appended to the failure channel — carrying the descriptor's
string form, the exception's diagnostic text (doc string and message)
and the stack-trace text — and everything else unchanged, so the run
continues. -/
theorem execute_exception_single_fail_message (t : TestEntry) (u : UnitTest) (e : PyExn)
    (h : t.func_ptr.call t.func_arg = .error e ∨
      ∃ out, t.func_ptr.call t.func_arg = .ok out ∧
        t.equal_func_ptr.call out t.equal_func_rhs = .error e) :
    t.execute u = { u with print_queue := u.print_queue
      ++ ["Failed: " ++ t.toStr ++ "\nerror: " ++ e.doc ++ " " ++ e.msg ++ "\n"
          ++ e.trace ++ "\n"] } := by
  rcases h with hf | ⟨out, hf, he⟩
  · simp [TestEntry.execute, hf, excFailMsg]
  · simp [TestEntry.execute, hf, he, excFailMsg]

/-- Witness for C1 at a concrete raising target. -/
theorem execute_exception_single_fail_message_witness :
    raisingEntry.execute UnitTest.init = { UnitTest.init with
      print_queue := UnitTest.init.print_queue
        ++ ["Failed: " ++ raisingEntry.toStr ++ "\nerror: " ++ exnBoom.doc ++ " "
            ++ exnBoom.msg ++ "\n" ++ exnBoom.trace ++ "\n"] } :=
  execute_exception_single_fail_message raisingEntry UnitTest.init exnBoom (Or.inl rfl)

/-- C3: a descriptor whose target returns normally publishes exactly one
message — the Passed line on the pass channel when the predicate
evaluates true, the Failed mismatch line on the failure channel when it
evaluates false — and nothing else changes. -/
theorem execute_normal_outcome_messages (t : TestEntry) (u : UnitTest) (out : PyVal)
    (b : Bool)
    (hf : t.func_ptr.call t.func_arg = .ok out)
    (he : t.equal_func_ptr.call out t.equal_func_rhs = .ok b) :
    t.execute u =
      if b then
        { u with passed := u.passed
            ++ ["Passed: " ++ t.funcStr ++ "->" ++ pyStr out ++ "\n"] }
      else
        { u with print_queue := u.print_queue
            ++ ["Failed: " ++ t.funcStr ++ "->" ++ pyStr out
                ++ " is not evaluated from " ++ pyStr t.equal_func_rhs ++ "\n"] } := by
  cases b <;> simp [TestEntry.execute, hf, he]

/-- Witness for C3 at a concrete passing entry and a concrete failing
entry. -/
theorem execute_normal_outcome_messages_witness :
    passingEntry.execute UnitTest.init
      = { UnitTest.init with passed := UnitTest.init.passed
          ++ ["Passed: " ++ passingEntry.funcStr ++ "->"
              ++ pyStr (PyVal.atom (.aInt 2)) ++ "\n"] } ∧
    failingEntry.execute UnitTest.init
      = { UnitTest.init with print_queue := UnitTest.init.print_queue
          ++ ["Failed: " ++ failingEntry.funcStr ++ "->" ++ pyStr (PyVal.atom (.aInt 3))
              ++ " is not evaluated from " ++ pyStr failingEntry.equal_func_rhs ++ "\n"] } :=
  ⟨execute_normal_outcome_messages passingEntry UnitTest.init
      (PyVal.atom (.aInt 2)) true rfl rfl,
   execute_normal_outcome_messages failingEntry UnitTest.init
      (PyVal.atom (.aInt 3)) false rfl rfl⟩

/-- C10: the module helper str_in_set raises NameError on every pair of
inputs, because its body evaluates the unbound name rhs_set instead of
its parameter rhs_iter. -/
theorem str_in_set_always_raises_name_error (lhs rhs_iter : PyVal) :
    str_in_set lhs rhs_iter = .error nameErrorRhsSet := rfl

/-- C6 counterexample: on a machine with 2 cores the spawn loop starts
max(0, 1) = 1 worker, but the printed header is
Executing with 0 procssors. — neither the claimed worker count nor the
claimed spelling processors. -/
theorem execute_async_header_counterexample :
    (UnitTest.execute_async_prelude 2).2 = 1 ∧
    (UnitTest.execute_async_prelude 2).1 = "Executing with 0 procssors." ∧
    ¬ (UnitTest.execute_async_prelude 2).1
        = "Executing with " ++ toString (UnitTest.execute_async_prelude 2).2
          ++ " processors." := by
  refine ⟨rfl, rfl, ?_⟩
  decide

/-- C6 amended: execute_async prints
Executing with (cpu_count - 2) procssors. — the count unfloored and the
word misspelled — while the spawn loop starts max(cpu_count - 2, 1)
workers, which is at least 1 and equals cpu_count - 2 whenever the
machine has at least 3 cores. -/
theorem execute_async_header_and_worker_count (cpu_count : Nat) :
    (UnitTest.execute_async_prelude cpu_count).1
      = "Executing with " ++ toString ((cpu_count : Int) - 2) ++ " procssors." ∧
    (UnitTest.execute_async_prelude cpu_count).2
      = (max ((cpu_count : Int) - 2) 1).toNat ∧
    1 ≤ (UnitTest.execute_async_prelude cpu_count).2 ∧
    (3 ≤ cpu_count → (UnitTest.execute_async_prelude cpu_count).2 = cpu_count - 2) := by
  refine ⟨rfl, rfl, ?_, ?_⟩
  · simp only [UnitTest.execute_async_prelude, UnitTest.PROCESSES]
    omega
  · intro h
    simp only [UnitTest.execute_async_prelude, UnitTest.PROCESSES]
    omega

/-- Witness for C6 amended on an 8-core machine. -/
theorem execute_async_header_and_worker_count_witness :
    (UnitTest.execute_async_prelude 8).1
      = "Executing with " ++ toString ((8 : Int) - 2) ++ " procssors." ∧
    (UnitTest.execute_async_prelude 8).2 = 6 :=
  ⟨(execute_async_header_and_worker_count 8).1,
   (execute_async_header_and_worker_count 8).2.2.2 (by decide)⟩

/-- C4 counterexample: the aggregator receives the non-empty value boom
from the failure channel within the timeout, then the pass-channel
receive times out; the iteration prints only the accumulated pass text
and returns, and boom is never printed. -/
theorem aggregator_drops_failure_on_pass_timeout :
    _execute_print_queue [(Recv.got "boom", Recv.timedOut)] "\n" 0 200 = ["\n"] ∧
    ¬ "boom" ∈ _execute_print_queue [(Recv.got "boom", Recv.timedOut)] "\n" 0 200 := by
  exact ⟨rfl, by decide⟩

/-- C4 amended: in an iteration where both receives yield values within
the poll timeout, a non-empty failure value is printed first; if either
receive times out, the aggregator prints the accumulated pass text and
returns normally instead of raising — and in particular a failure value
received in an iteration whose pass-channel receive times out is
discarded unprinted. -/
theorem aggregator_iteration_print_and_timeout (txtR passR : Recv)
    (rest : List (Recv × Recv)) (passed_str : String)
    (count counts_per_update : Nat) :
    (∀ txt passed, txtR = .got txt → passR = .got passed → txt ≠ "" →
      ∃ tail, _execute_print_queue ((txtR, passR) :: rest) passed_str count
        counts_per_update = txt :: tail) ∧
    ((txtR = .timedOut ∨ passR = .timedOut) →
      _execute_print_queue ((txtR, passR) :: rest) passed_str count
        counts_per_update = [passed_str]) := by
  constructor
  · rintro txt passed rfl rfl htxt
    by_cases hp : passed ≠ ""
    · refine ⟨(if count % counts_per_update == 0 then
          ["Current count: " ++ toString count] else [])
        ++ _execute_print_queue rest (passed_str ++ passed) (count + 1)
            counts_per_update, ?_⟩
      simp [_execute_print_queue, htxt, hp]
    · refine ⟨_execute_print_queue rest passed_str count counts_per_update, ?_⟩
      simp [_execute_print_queue, htxt, hp]
  · rintro (rfl | rfl)
    · rfl
    · cases txtR <;> rfl

/-- Witness for C4 amended: a delivered pair prints the failure text
first; a pass-channel timeout returns just the accumulated text. -/
theorem aggregator_iteration_print_and_timeout_witness :
    (∃ tail, _execute_print_queue [(Recv.got "boom", Recv.got "ok")] "\n" 0 200
        = "boom" :: tail) ∧
    _execute_print_queue [(Recv.got "x", Recv.timedOut)] "\n" 0 200 = ["\n"] :=
  ⟨(aggregator_iteration_print_and_timeout (.got "boom") (.got "ok") [] "\n" 0 200).1
      "boom" "ok" rfl rfl (by decide),
   (aggregator_iteration_print_and_timeout (.got "x") Recv.timedOut [] "\n" 0 200).2
      (Or.inr rfl)⟩

/-- C2 counterexample: with a passing test enqueued first and a failing
test enqueued second, the synchronous run prints the Failed line of the
second-enqueued test before the Passed line of the first-enqueued test,
because it drains the failure channel completely before the pass
channel; the result lines are therefore not in enqueue (FIFO) order. -/
theorem execute_not_in_enqueue_order_counterexample :
    passThenFailState.test_queue.map TestEntry.func_name = ["test_func", "g"] ∧
    (UnitTest.execute 7 passThenFailState).2
      = ["PID #7 should be started.",
         "Failed: g()->3 is not evaluated from set()\n",
         "PID #7 should be joined.",
         "Passed: test_func()->2\n",
         "passed 1/2"] ∧
    List.indexOf "Failed: g()->3 is not evaluated from set()\n"
        (UnitTest.execute 7 passThenFailState).2
      < List.indexOf "Passed: test_func()->2\n"
        (UnitTest.execute 7 passThenFailState).2 := by
  refine ⟨rfl, rfl, ?_⟩
  decide

/-- C2 amended: the synchronous execute prints every failure-channel
line first (the started diagnostic, the per-test Failed lines in enqueue
order, the joined diagnostic), then every pass-channel line (the Passed
lines in enqueue order), then the summary line last; enqueue order holds
within each outcome class but not across the two classes. -/
theorem execute_prints_fail_channel_then_pass_channel (pid : Nat) (u : UnitTest) :
    (UnitTest.execute pid u).2
      = (u.print_queue
          ++ pidStartMsg pid :: (failMsgsList u.test_queue ++ [pidJoinMsg pid]))
        ++ (u.passed ++ passMsgsList u.test_queue)
        ++ ["passed "
            ++ toString (u.count
                + (u.passed.length + (passMsgsList u.test_queue).length))
            ++ "/" ++ toString u.total] := by
  simp [UnitTest.execute, execute_synchronously_eq, List.append_assoc]

/-- C9: a worker run over a fresh print channel publishes the started
line first, then only per-test failure messages, then the joined line;
exactly two of the published messages are the PID diagnostics. -/
theorem worker_publishes_two_pid_diagnostics (pid : Nat) (u : UnitTest)
    (h : u.print_queue = []) :
    (_execute_synchronously pid u).print_queue
      = pidStartMsg pid :: (failMsgsList u.test_queue ++ [pidJoinMsg pid]) ∧
    ((_execute_synchronously pid u).print_queue.countP
      (fun s => s == pidStartMsg pid || s == pidJoinMsg pid)) = 2 := by
  have hspec := execute_synchronously_eq pid u
  constructor
  · rw [hspec, h, List.nil_append]
  · rw [hspec, h, List.nil_append]
    rw [List.countP_cons, List.countP_append]
    have hz : (failMsgsList u.test_queue).countP
        (fun s => s == pidStartMsg pid || s == pidJoinMsg pid) = 0 := by
      rw [List.countP_eq_zero]
      intro m hm
      simp only [Bool.not_eq_true]
      exact failMsgsList_not_pid pid u.test_queue m hm
    rw [hz]
    simp

/-- Witness for C9 on a harness holding one failing entry. -/
theorem worker_publishes_two_pid_diagnostics_witness :
    (_execute_synchronously 42 oneFailState).print_queue
      = pidStartMsg 42 :: (failMsgsList oneFailState.test_queue ++ [pidJoinMsg 42]) ∧
    ((_execute_synchronously 42 oneFailState).print_queue.countP
      (fun s => s == pidStartMsg 42 || s == pidJoinMsg 42)) = 2 :=
  worker_publishes_two_pid_diagnostics 42 oneFailState rfl

/-- Membership in the normalization fold of add_test: an atom is
collected exactly when some element of the source set stringifies to
it. -/
theorem mem_strSet_foldl (xs : List PyAtom) (acc : List PyAtom) (x : PyAtom) :
    (x ∈ xs.foldl (fun acc a =>
        let s := PyAtom.aStr a.pyStrAtom
        if s ∈ acc then acc else acc ++ [s]) acc)
    ↔ (x ∈ acc ∨ ∃ b ∈ xs, PyAtom.aStr b.pyStrAtom = x) := by
  induction xs generalizing acc with
  | nil => simp
  | cons a rest ih =>
      simp only [List.foldl_cons, ih, List.mem_cons]
      by_cases hmem : PyAtom.aStr a.pyStrAtom ∈ acc
      · have hx : PyAtom.aStr a.pyStrAtom = x → x ∈ acc := fun e => e ▸ hmem
        simp only [hmem, if_pos, List.mem_cons, exists_eq_or_imp]
        tauto
      · simp only [hmem, if_neg, List.mem_append, List.mem_singleton,
          exists_eq_or_imp, not_false_iff]
        constructor
        · rintro ((h | h) | ⟨b, hb, e⟩)
          · exact Or.inl h
          · exact Or.inr (Or.inl h.symm)
          · exact Or.inr (Or.inr ⟨b, hb, e⟩)
        · rintro (h | h | ⟨b, hb, e⟩)
          · exact Or.inl (Or.inl h)
          · exact Or.inl (Or.inr h.symm)
          · exact Or.inr ⟨b, hb, e⟩

/-- Membership in the stringified expected set. -/
theorem mem_strSetOfList (xs : List PyAtom) (x : PyAtom) :
    x ∈ strSetOfList xs ↔ ∃ b ∈ xs, PyAtom.aStr b.pyStrAtom = x := by
  rw [strSetOfList, mem_strSet_foldl]
  simp

/-- Counting helper: add_tests registers its entries one by one. -/
theorem add_tests_total (es : List TestEntry) :
    ∀ u : UnitTest, (UnitTest.add_tests u es).total = u.total + es.length := by
  induction es with
  | nil => intro u; rfl
  | cons e rest ih =>
      intro u
      have h := ih { u with test_queue := u.test_queue ++ [e], total := u.total + 1 }
      simp only [UnitTest.add_tests, List.foldl_cons] at h ⊢
      rw [h, List.length_cons]
      omega

/-- C5: add_test normalizes its expected argument to a set of strings
(a lone non-set value contributes its string form; each element of a set
contributes its string form), enqueues exactly one descriptor built with
the default string-membership predicate in_set_wrapper, and increments
total by one; add_tests increments total once per entry. -/
theorem add_test_normalizes_and_counts (u : UnitTest) (func : PyFunc) (v : PyVal)
    (a : PyAtom) (xs : List PyAtom) (f_arg : List PyVal) (es : List TestEntry) :
    (UnitTest.add_test u func v f_arg).1.total = u.total + 1 ∧
    (UnitTest.add_tests u es).total = u.total + es.length ∧
    (UnitTest.add_test u func (.atom a) f_arg).1.test_queue
      = u.test_queue ++ [TestEntry.lazy_init func (.set [.aStr a.pyStrAtom]) f_arg] ∧
    (UnitTest.add_test u func (.set xs) f_arg).1.test_queue
      = u.test_queue ++ [TestEntry.lazy_init func (.set (strSetOfList xs)) f_arg] ∧
    (∀ x ∈ strSetOfList xs, ∃ s, x = PyAtom.aStr s) ∧
    (∀ s, PyAtom.aStr s ∈ strSetOfList xs ↔ ∃ b ∈ xs, PyAtom.pyStrAtom b = s) ∧
    (TestEntry.lazy_init func v f_arg).equal_func_ptr = in_set_wrapper := by
  refine ⟨rfl, add_tests_total es u, rfl, rfl, ?_, ?_, rfl⟩
  · intro x hx
    rcases (mem_strSetOfList xs x).mp hx with ⟨b, _, e⟩
    exact ⟨b.pyStrAtom, e.symm⟩
  · intro s
    rw [mem_strSetOfList]
    constructor
    · rintro ⟨b, hb, e⟩
      exact ⟨b, hb, by simpa using e⟩
    · rintro ⟨b, hb, e⟩
      exact ⟨b, hb, by simpa using e⟩

/-- Witness for C5 at a concrete mixed-type expected set. -/
theorem add_test_normalizes_and_counts_witness :
    (UnitTest.add_test UnitTest.init constTwo (.atom (.aInt 7)) []).1.total = 1 ∧
    (UnitTest.add_tests UnitTest.init [failingEntry]).total = 1 ∧
    (∃ s, PyAtom.aStr "1" = PyAtom.aStr s) ∧
    (PyAtom.aStr "1" ∈ strSetOfList [.aInt 1, .aStr "1"]
      ↔ ∃ b ∈ [PyAtom.aInt 1, PyAtom.aStr "1"], PyAtom.pyStrAtom b = "1") :=
  ⟨(add_test_normalizes_and_counts UnitTest.init constTwo (.atom (.aInt 7))
      (.aInt 7) [] [] []).1,
   (add_test_normalizes_and_counts UnitTest.init constTwo (.atom (.aInt 7))
      (.aInt 7) [] [] [failingEntry]).2.1,
   (add_test_normalizes_and_counts UnitTest.init constTwo (.atom (.aInt 7))
      (.aInt 7) [.aInt 1, .aStr "1"] [] []).2.2.2.2.1 (PyAtom.aStr "1") (by decide),
   (add_test_normalizes_and_counts UnitTest.init constTwo (.atom (.aInt 7))
      (.aInt 7) [.aInt 1, .aStr "1"] [] []).2.2.2.2.2.1 "1"⟩

/-- C7: with expansion requested, multi_init turns an iterable expected
value into one descriptor per iterated element, and a non-iterable
expected value into a single scalar descriptor instead of raising. -/
theorem multi_init_expand_behavior (func_ptr : PyFunc) (equal_func_ptr : PyPred)
    (func_arg : List PyVal) (equal_rhs : PyVal)
    (rest : List (List PyVal × PyVal)) (func_name : Option String) :
    (∀ items, pyIter equal_rhs = some items →
      TestEntry.multi_init func_ptr equal_func_ptr ((func_arg, equal_rhs) :: rest)
          func_name true
        = (items.map fun r =>
            { func_ptr := func_ptr, equal_func_ptr := equal_func_ptr
              equal_func_rhs := r, func_name := func_name.getD func_ptr.name
              func_arg := func_arg })
          ++ TestEntry.multi_init func_ptr equal_func_ptr rest func_name true) ∧
    (pyIter equal_rhs = none →
      TestEntry.multi_init func_ptr equal_func_ptr ((func_arg, equal_rhs) :: rest)
          func_name true
        = { func_ptr := func_ptr, equal_func_ptr := equal_func_ptr
            equal_func_rhs := equal_rhs, func_name := func_name.getD func_ptr.name
            func_arg := func_arg }
          :: TestEntry.multi_init func_ptr equal_func_ptr rest func_name true) := by
  constructor
  · intro items hiter
    simp [TestEntry.multi_init, hiter]
  · intro hiter
    simp [TestEntry.multi_init, hiter]

/-- Witness for C7 at a concrete iterable expected set and a concrete
non-iterable int. -/
theorem multi_init_expand_behavior_witness :
    TestEntry.multi_init constTwo str_eq [([], PyVal.set [.aInt 5])] none true
      = [{ func_ptr := constTwo, equal_func_ptr := str_eq
           equal_func_rhs := PyVal.atom (.aInt 5), func_name := constTwo.name
           func_arg := [] }] ∧
    TestEntry.multi_init constTwo str_eq [([], PyVal.atom (.aInt 7))] none true
      = [{ func_ptr := constTwo, equal_func_ptr := str_eq
           equal_func_rhs := PyVal.atom (.aInt 7), func_name := constTwo.name
           func_arg := [] }] :=
  ⟨(multi_init_expand_behavior constTwo str_eq [] (PyVal.set [.aInt 5]) [] none).1
      [PyVal.atom (.aInt 5)] rfl,
   (multi_init_expand_behavior constTwo str_eq [] (PyVal.atom (.aInt 7)) [] none).2
      rfl⟩

/-- C8: calling add_test with a set object as the expected argument
drains the caller's set — the popping loop runs on the argument itself,
so after the call the caller's set is empty, while the enqueued
descriptor holds the stringified copy of its former elements. -/
theorem add_test_with_set_argument_empties_it (u : UnitTest) (func : PyFunc)
    (xs : List PyAtom) (f_arg : List PyVal) :
    (UnitTest.add_test u func (.set xs) f_arg).2 = PyVal.set [] ∧
    (UnitTest.add_test u func (.set xs) f_arg).1.test_queue
      = u.test_queue ++ [TestEntry.lazy_init func (.set (strSetOfList xs)) f_arg] :=
  ⟨rfl, rfl⟩

end LiteUnitTest
